import Mathlib

/-!
Verification of `flask_iiif/utils.py` against its natural-language
specification.

The module is shallowly embedded: Python keyword-argument mappings become
association lists of `String × PyVal`; the PIL image capability is modelled
by `GifFile` (an ordered list of frames plus duration/loop metadata, with
`is_animated` true exactly when there is more than one frame, as in PIL);
the filesystem staging area used by `create_gif_from_frames` becomes an
explicit `FS` state threaded through the compositor; the possibility of the
external save step failing is an explicit `saveOk` flag.  Fallible Python
control flow (`abort(404)`, `IndexError`, failed `assert`, raised IO
errors, `TypeError` on naive/aware datetime subtraction) is returned as
`Except` values over the error taxonomy of the spec.
-/

namespace FlaskIIIF

/-- A Python keyword-argument value as used by `iiif_image_url`:
`None`, a string, or an integer. -/
inductive PyVal where
  | none
  | str (s : String)
  | int (n : Int)
deriving DecidableEq, Repr

/-- A Python `**kwargs` mapping, embedded as an association list
(keyword arguments have distinct keys; lookup takes the first match). -/
abbrev Kwargs := List (String × PyVal)

/-- `kwargs.get(k)`: the value stored under `k`, or `None` when `k` is
absent. -/
def Kwargs.get (kwargs : Kwargs) (k : String) : PyVal :=
  match kwargs.find? (fun p => p.1 = k) with
  | Option.some p => p.2
  | Option.none => PyVal.none

/-- `kwargs.get(k, d)`: the value stored under `k` (even when that stored
value is `None`), or the default `d` when `k` is absent. -/
def Kwargs.getD (kwargs : Kwargs) (k : String) (d : PyVal) : PyVal :=
  match kwargs.find? (fun p => p.1 = k) with
  | Option.some p => p.2
  | Option.none => d

/-- The failure taxonomy of the module (spec §7): a missing identifier in
the URL builder, an empty frame sequence, a staging-area IO failure, and a
failed multi-frame assertion in the compositor. -/
inductive IIIFError where
  | missingIdentifier
  | emptyFrameSequence
  | stagingIOFailure
  | animationAssertionFailed
deriving DecidableEq, Repr

/-- The call `iiif_image_url` makes to the routing collaborator `url_for`:
the endpoint name, the seven recognized parameters, and the forwarded
underscore-prefixed auxiliary options.  The locator string itself is opaque
(produced by the collaborator), so the call record is the builder's
observable output. -/
structure UrlCall where
  endpoint : String
  image_format : PyVal
  quality : PyVal
  region : PyVal
  rotation : PyVal
  size : PyVal
  uuid : PyVal
  version : PyVal
  url_for_args : Kwargs
deriving DecidableEq, Repr

/-- `k.startswith("_")` from Python: whether the first character of the
keyword is an underscore. -/
def startsWithUnderscore (k : String) : Bool :=
  match k.data with
  | [] => false
  | c :: _ => c = '_'

/-- `iiif_image_url(**kwargs)` from `flask_iiif/utils.py`: abort with 404
(`missingIdentifier`) when `kwargs.get("uuid")` is `None`; otherwise call
`url_for("iiifimageapi", ...)` with documented defaults for each omitted
recognized parameter and with every underscore-prefixed argument forwarded
verbatim. -/
def iiif_image_url (kwargs : Kwargs) : Except IIIFError UrlCall :=
  if kwargs.get "uuid" = PyVal.none then
    Except.error IIIFError.missingIdentifier
  else
    Except.ok
      { endpoint := "iiifimageapi"
        image_format := kwargs.getD "image_format" (PyVal.str "png")
        quality := kwargs.getD "quality" (PyVal.str "default")
        region := kwargs.getD "region" (PyVal.str "full")
        rotation := kwargs.getD "rotation" (PyVal.int 0)
        size := kwargs.getD "size" (PyVal.str "full")
        uuid := kwargs.get "uuid"
        version := kwargs.getD "version" (PyVal.str "v2")
        url_for_args := kwargs.filter (fun p => startsWithUnderscore p.1) }

/-- The pixel content of a frame: either a source bitmap or the result of
resampling a bitmap to new dimensions with a given method.  Pixel-level
arithmetic belongs to the external image capability and is kept abstract;
what matters is which transform produced the content. -/
inductive Bitmap where
  | src (id : Nat)
  | resampled (method : Nat) (w h : Nat) (orig : Bitmap)
deriving DecidableEq, Repr

/-- One still raster frame: its dimensions plus its pixel content. -/
structure Frame where
  width : Nat
  height : Nat
  bitmap : Bitmap
deriving DecidableEq, Repr

/-- `frame.resize(size, resample=method)` from PIL: a new frame with
exactly the target dimensions whose content is the resampling of the
original with the caller-specified method. -/
def Frame.resize (f : Frame) (size : Nat × Nat) (resample : Nat) : Frame :=
  { width := size.1
    height := size.2
    bitmap := Bitmap.resampled resample size.1 size.2 f.bitmap }

/-- A saved-and-reopened GIF artifact: its ordered frames in playback
order plus the per-frame duration and loop metadata written at save time. -/
structure GifFile where
  frames : List Frame
  duration : Nat
  loop : Nat
deriving DecidableEq, Repr

/-- PIL's `is_animated`: true exactly when the artifact has more than one
frame (a one-frame save produces a static image). -/
def GifFile.is_animated (g : GifFile) : Bool :=
  decide (1 < g.frames.length)

/-- The filesystem as seen by the compositor: the set of staging
directories currently present on disk (as a list, newest first) and a
counter supplying the next fresh directory name. -/
structure FS where
  dirs : List Nat
  nextId : Nat
deriving DecidableEq, Repr

/-- `tempfile.mkdtemp(...)`: create a fresh staging directory under the
configured path and return its name together with the new filesystem
state. -/
def mkdtemp (fs : FS) : Nat × FS :=
  (fs.nextId, { dirs := fs.nextId :: fs.dirs, nextId := fs.nextId + 1 })

/-- `shutil.rmtree(d)`: remove the staging directory `d` from disk. -/
def rmtree (fs : FS) (d : Nat) : FS :=
  { fs with dirs := fs.dirs.erase d }

/-- `create_gif_from_frames(frames, duration=500, loop=0)` from
`flask_iiif/utils.py`, with explicit timing arguments.  The function first
creates a staging directory, then splits the input into `frames[0]` and
`frames[1:]` (an empty input raises `IndexError`, the spec's
`EmptyFrameSequence`), saves head plus appended tail with the given
duration and loop to a file in the staging area (`saveOk` models whether
this external IO step succeeds), reopens the file, asserts the reopened
artifact is animated, removes the staging directory, and returns the
artifact.  As in the source, the `rmtree` cleanup is only reached after
both the save and the assertion succeed. -/
def create_gif_from_frames (frames : List Frame) (duration : Nat) (loop : Nat)
    (saveOk : Bool) (fs : FS) : Except IIIFError GifFile × FS :=
  let tmpAlloc := mkdtemp fs
  let tmp := tmpAlloc.1
  let fs1 := tmpAlloc.2
  match frames with
  | [] => (Except.error IIIFError.emptyFrameSequence, fs1)
  | head :: tail =>
    if saveOk then
      let gif_image : GifFile :=
        { frames := head :: tail, duration := duration, loop := loop }
      if gif_image.is_animated then
        (Except.ok gif_image, rmtree fs1 tmp)
      else
        (Except.error IIIFError.animationAssertionFailed, fs1)
    else
      (Except.error IIIFError.stagingIOFailure, fs1)

/-- `create_gif_from_frames(frames)` called without explicit timing
parameters: the Python defaults `duration=500`, `loop=0` apply. -/
def create_gif_from_frames_default (frames : List Frame) (saveOk : Bool)
    (fs : FS) : Except IIIFError GifFile × FS :=
  create_gif_from_frames frames 500 0 saveOk fs

/-- `resize_gif(image, size, resample)` from `flask_iiif/utils.py`:
iterate the source artifact's frames in playback order
(`ImageSequence.Iterator`), resize each to `size` with the given method,
and recompose via `create_gif_from_frames` with no timing overrides. -/
def resize_gif (image : GifFile) (size : Nat × Nat) (resample : Nat)
    (saveOk : Bool) (fs : FS) : Except IIIFError GifFile × FS :=
  create_gif_from_frames_default
    (image.frames.map (fun f => f.resize size resample)) saveOk fs

/-- Flask request args, embedded as an association list of strings. -/
abbrev RequestArgs := List (String × String)

/-- Dictionary lookup on request args: the value under `k`, when present. -/
def lookupArg (args : RequestArgs) (k : String) : Option String :=
  (args.find? (fun p => p.1 = k)).map (fun p => p.2)

/-- `should_cache(request_args)` from `flask_iiif/utils.py`: `false` when
a `cache-control` key is present with value `no-cache` or `no-store`,
`true` otherwise. -/
def should_cache (request_args : RequestArgs) : Bool :=
  match lookupArg request_args "cache-control" with
  | Option.some v => if v = "no-cache" ∨ v = "no-store" then false else true
  | Option.none => true

/-- Zero-pad a natural number to two digits, as `%02d`. -/
def pad2 (n : Nat) : String :=
  if n < 10 then "0" ++ toString n else toString n

/-- Zero-pad a natural number to four digits, as `%04d`. -/
def pad4 (n : Nat) : String :=
  if n < 10 then "000" ++ toString n
  else if n < 100 then "00" ++ toString n
  else if n < 1000 then "0" ++ toString n
  else toString n

/-- Abbreviated day names indexed by `tm_wday` (Monday = 0), as used by
`email.utils.formatdate`. -/
def dayNames : List String :=
  ["Mon", "Tue", "Wed", "Thu", "Fri", "Sat", "Sun"]

/-- Abbreviated month names indexed from 0 (January), as used by
`email.utils.formatdate`. -/
def monthNames : List String :=
  ["Jan", "Feb", "Mar", "Apr", "May", "Jun",
   "Jul", "Aug", "Sep", "Oct", "Nov", "Dec"]

/-- Convert a count of days since 1970-01-01 to a civil `(year, month,
day)` date, months and days 1-based: the standard days-to-civil
conversion underlying `time.gmtime`. -/
def civilFromDays (z0 : Int) : Int × Nat × Nat :=
  let z := z0 + 719468
  let era := z.ediv 146097
  let doe := (z.emod 146097).toNat
  let yoe := (doe - doe / 1460 + doe / 36524 - doe / 146096) / 365
  let y := (yoe : Int) + era * 400
  let doy := doe - (365 * yoe + yoe / 4 - yoe / 100)
  let mp := (5 * doy + 2) / 153
  let d := doy - (153 * mp + 2) / 5 + 1
  let m := if mp < 10 then mp + 3 else mp - 9
  (if m ≤ 2 then y + 1 else y, m, d)

/-- The date-and-time part of `email.utils.formatdate(timeval)`:
`time.gmtime(timeval)` rendered as `Day, DD Mon YYYY HH:MM:SS`
(without the zone suffix). -/
def formatdate_core (timeval : Int) : String :=
  let days := timeval.ediv 86400
  let secsOfDay := (timeval.emod 86400).toNat
  let civ := civilFromDays days
  let year := civ.1
  let month := civ.2.1
  let day := civ.2.2
  let wday := ((days + 3).emod 7).toNat
  let hh := secsOfDay / 3600
  let mi := secsOfDay % 3600 / 60
  let ss := secsOfDay % 60
  dayNames.getD wday "" ++ ", " ++ pad2 day ++ " " ++
    monthNames.getD (month - 1) "" ++ " " ++ pad4 year.toNat ++ " " ++
    pad2 hh ++ ":" ++ pad2 mi ++ ":" ++ pad2 ss

/-- `email.utils.formatdate(timeval, usegmt=True)`: the RFC-2822 date
string with the literal `GMT` zone suffix. -/
def formatdate_gmt (timeval : Int) : String :=
  formatdate_core timeval ++ " GMT"

/-- A Python `datetime` value at one-second granularity: the wall-clock
reading as seconds since 1970-01-01 00:00:00, plus its UTC offset when the
value is timezone-aware (`Option.none` means a naive value). -/
structure PyDatetime where
  seconds : Int
  tzOffset : Option Int
deriving DecidableEq, Repr

/-- The `TypeError` Python raises when subtracting a naive `datetime`
from an aware one or vice versa. -/
inductive PyTypeError where
  | naiveAwareMismatch
deriving DecidableEq, Repr

/-- `(a - b).total_seconds()` on Python datetimes: defined when both are
naive or both are aware, a `TypeError` when they are mixed. -/
def datetimeSubSeconds (a b : PyDatetime) : Except PyTypeError Int :=
  match a.tzOffset, b.tzOffset with
  | Option.none, Option.none => Except.ok (a.seconds - b.seconds)
  | Option.some oa, Option.some ob =>
    Except.ok ((a.seconds - oa) - (b.seconds - ob))
  | _, _ => Except.error PyTypeError.naiveAwareMismatch

/-- `datetime.datetime.utcfromtimestamp(0)`: the naive epoch. -/
def utcEpoch : PyDatetime :=
  { seconds := 0, tzOffset := Option.none }

/-- `datetime_to_float(date)` from `flask_iiif/utils.py`: subtract the
naive epoch from `date`, take total seconds, and format the result with
`formatdate(..., usegmt=True)`.  The subtraction raises `TypeError` when
`date` is timezone-aware. -/
def datetime_to_float (date : PyDatetime) : Except PyTypeError String :=
  (datetimeSubSeconds date utcEpoch).map formatdate_gmt

/-! ### Helper lemmas shared between claims -/

/-- On a sequence of at least two frames, with the save step succeeding,
the compositor returns the artifact containing exactly the input frames
with the requested timing metadata. -/
theorem create_gif_ok_of_two_le (frames : List Frame) (duration loop : Nat)
    (fs : FS) (h : 2 ≤ frames.length) :
    (create_gif_from_frames frames duration loop true fs).1 =
      Except.ok { frames := frames, duration := duration, loop := loop } := by
  rcases frames with _ | ⟨hd, tl⟩
  · simp at h
  · have h1 : (1 : Nat) < tl.length + 1 := by
      simpa using h
    simp [create_gif_from_frames, mkdtemp, GifFile.is_animated, h1]

/-- Any artifact the compositor returns successfully is exactly the input
frames together with the requested timing metadata. -/
theorem create_gif_ok_shape (frames : List Frame) (duration loop : Nat)
    (saveOk : Bool) (fs : FS) (g : GifFile) (fs2 : FS)
    (h : create_gif_from_frames frames duration loop saveOk fs =
      (Except.ok g, fs2)) :
    g = { frames := frames, duration := duration, loop := loop } := by
  rcases frames with _ | ⟨hd, tl⟩
  · simp [create_gif_from_frames, mkdtemp] at h
  · cases saveOk
    · simp [create_gif_from_frames, mkdtemp] at h
    · by_cases ha : (1 : Nat) < tl.length + 1
      · simp [create_gif_from_frames, mkdtemp, GifFile.is_animated, ha] at h
        exact h.1.symm
      · simp [create_gif_from_frames, mkdtemp, GifFile.is_animated, ha] at h

/-! ### Claim theorems -/

/-- Claim C1, counterexample: on the empty input sequence, starting from an
empty disk, `create_gif_from_frames` returns the `EmptyFrameSequence`
failure while the staging directory it created (directory `0`) is still on
disk — so the staging area is NOT deleted on every exit path. -/
theorem create_gif_empty_input_leaves_residue :
    (create_gif_from_frames [] 500 0 true { dirs := [], nextId := 0 }).1 =
      Except.error IIIFError.emptyFrameSequence ∧
    (create_gif_from_frames [] 500 0 true { dirs := [], nextId := 0 }).2.dirs =
      [0] :=
  ⟨rfl, rfl⟩

/-- Claim C1, amended: the staging area created at the start of
`create_gif_from_frames` is deleted before the call returns only on the
success path; on every failure path (empty input, failed save step, failed
multi-frame assertion) the staging directory remains on disk. -/
theorem create_gif_cleanup_only_on_success (frames : List Frame)
    (duration loop : Nat) (saveOk : Bool) (fs : FS) :
    (create_gif_from_frames frames duration loop saveOk fs).2.dirs =
      match (create_gif_from_frames frames duration loop saveOk fs).1 with
      | Except.ok _ => fs.dirs
      | Except.error _ => fs.nextId :: fs.dirs := by
  rcases frames with _ | ⟨hd, _ | ⟨hd2, tl⟩⟩
  · simp [create_gif_from_frames, mkdtemp]
  · cases saveOk <;>
      simp [create_gif_from_frames, mkdtemp, GifFile.is_animated]
  · cases saveOk
    · simp [create_gif_from_frames, mkdtemp]
    · have h1 : (1 : Nat) < tl.length + 1 + 1 := by omega
      simp [create_gif_from_frames, mkdtemp, GifFile.is_animated, h1, rmtree]

/-- Claim C2: whenever the `uuid` entry of the argument mapping is absent
or `None`, `iiif_image_url` fails with `MissingIdentifier` (the 404 abort)
and produces no call to the routing collaborator, hence no locator. -/
theorem iiif_image_url_missing_identifier (kwargs : Kwargs)
    (h : Kwargs.get kwargs "uuid" = PyVal.none) :
    iiif_image_url kwargs = Except.error IIIFError.missingIdentifier := by
  simp [iiif_image_url, h]

/-- Claim C2 witness: the mapping storing `None` under `uuid`. -/
theorem iiif_image_url_missing_identifier_witness :
    Kwargs.get [("uuid", PyVal.none)] "uuid" = PyVal.none ∧
    iiif_image_url [("uuid", PyVal.none)] =
      Except.error IIIFError.missingIdentifier :=
  ⟨by decide, iiif_image_url_missing_identifier [("uuid", PyVal.none)]
    (by decide)⟩

/-- Claim C3: a mapping supplying only the identifier produces a routing
call with exactly the documented defaults: format `png`, quality
`default`, region `full`, rotation `0`, size `full`, version `v2`, and no
auxiliary pass-through options. -/
theorem iiif_image_url_defaults (u : String) :
    iiif_image_url [("uuid", PyVal.str u)] =
      Except.ok
        { endpoint := "iiifimageapi"
          image_format := PyVal.str "png"
          quality := PyVal.str "default"
          region := PyVal.str "full"
          rotation := PyVal.int 0
          size := PyVal.str "full"
          uuid := PyVal.str u
          version := PyVal.str "v2"
          url_for_args := [] } := by
  simp [iiif_image_url, Kwargs.get, Kwargs.getD, List.find?, List.filter,
    startsWithUnderscore]

/-- Claim C4, counterexample: on a non-empty FrameSequence of exactly one
frame, with the save step succeeding, the compositor does NOT yield an
artifact whose frame count equals the input length — the one-frame save
is not animated, so the multi-frame assertion fails and the call returns
`AnimationAssertionFailed` instead of an artifact. -/
theorem create_gif_singleton_fails_assertion :
    (create_gif_from_frames [{ width := 1, height := 1, bitmap := Bitmap.src 0 }]
        500 0 true { dirs := [], nextId := 0 }).1 =
      Except.error IIIFError.animationAssertionFailed :=
  rfl

/-- Claim C4, amended: for every FrameSequence of at least two frames,
with the save step succeeding, composing then decoding yields a
multi-frame (animated) artifact whose frame list is exactly the input
list — same frame count, same playback order, with the requested timing
metadata. -/
theorem create_gif_roundtrip (frames : List Frame) (duration loop : Nat)
    (fs : FS) (h : 2 ≤ frames.length) :
    (create_gif_from_frames frames duration loop true fs).1 =
      Except.ok { frames := frames, duration := duration, loop := loop } ∧
    GifFile.is_animated
      { frames := frames, duration := duration, loop := loop } = true := by
  refine ⟨create_gif_ok_of_two_le frames duration loop fs h, ?_⟩
  simp only [GifFile.is_animated, decide_eq_true_eq]
  omega

/-- Claim C4 witness: a two-frame sequence. -/
theorem create_gif_roundtrip_witness :
    2 ≤ ([⟨1, 1, Bitmap.src 0⟩, ⟨1, 1, Bitmap.src 1⟩] : List Frame).length ∧
    ((create_gif_from_frames [⟨1, 1, Bitmap.src 0⟩, ⟨1, 1, Bitmap.src 1⟩]
        500 0 true { dirs := [], nextId := 0 }).1 =
      Except.ok
        { frames := [⟨1, 1, Bitmap.src 0⟩, ⟨1, 1, Bitmap.src 1⟩]
          duration := 500, loop := 0 } ∧
     GifFile.is_animated
        { frames := [⟨1, 1, Bitmap.src 0⟩, ⟨1, 1, Bitmap.src 1⟩]
          duration := 500, loop := 0 } = true) :=
  ⟨by decide,
   create_gif_roundtrip [⟨1, 1, Bitmap.src 0⟩, ⟨1, 1, Bitmap.src 1⟩] 500 0
     { dirs := [], nextId := 0 } (by decide)⟩

/-- Claim C5: resizing a multi-frame artifact to dimensions `(W, H)` with
a given resampling method, with the save step succeeding, yields exactly
the input frames each resampled to `(W, H)` with that method, in the same
order, recomposed with the compositor's default duration `500` and loop
`0`; every output frame has width `W` and height `H`. -/
theorem resize_gif_spec (image : GifFile) (size : Nat × Nat)
    (resample : Nat) (fs : FS) (h : GifFile.is_animated image = true) :
    (resize_gif image size resample true fs).1 =
      Except.ok
        { frames := image.frames.map (fun f => f.resize size resample)
          duration := 500, loop := 0 } ∧
    ∀ g ∈ image.frames.map (fun f => f.resize size resample),
      g.width = size.1 ∧ g.height = size.2 := by
  have hlen : 2 ≤ (image.frames.map (fun f => f.resize size resample)).length := by
    simp only [GifFile.is_animated, decide_eq_true_eq] at h
    simp only [List.length_map]
    omega
  constructor
  · exact create_gif_ok_of_two_le _ 500 0 fs hlen
  · intro g hg
    rcases List.mem_map.mp hg with ⟨f, _, rfl⟩
    exact ⟨rfl, rfl⟩

/-- Claim C5 witness: a two-frame artifact resized to `(2, 3)` with
method `5`. -/
theorem resize_gif_spec_witness :
    GifFile.is_animated
      { frames := [⟨1, 1, Bitmap.src 0⟩, ⟨1, 1, Bitmap.src 1⟩]
        duration := 100, loop := 7 } = true ∧
    ((resize_gif
        { frames := [⟨1, 1, Bitmap.src 0⟩, ⟨1, 1, Bitmap.src 1⟩]
          duration := 100, loop := 7 } (2, 3) 5 true
        { dirs := [], nextId := 0 }).1 =
      Except.ok
        { frames :=
            ({ frames := [⟨1, 1, Bitmap.src 0⟩, ⟨1, 1, Bitmap.src 1⟩]
               duration := 100, loop := 7 } : GifFile).frames.map
              (fun f => f.resize (2, 3) 5)
          duration := 500, loop := 0 } ∧
     ∀ g ∈ ({ frames := [⟨1, 1, Bitmap.src 0⟩, ⟨1, 1, Bitmap.src 1⟩]
              duration := 100, loop := 7 } : GifFile).frames.map
            (fun f => f.resize (2, 3) 5),
       g.width = (2, 3).1 ∧ g.height = (2, 3).2) :=
  ⟨by decide,
   resize_gif_spec
     { frames := [⟨1, 1, Bitmap.src 0⟩, ⟨1, 1, Bitmap.src 1⟩]
       duration := 100, loop := 7 } (2, 3) 5 { dirs := [], nextId := 0 }
     (by decide)⟩

/-- Claim C6: `should_cache` returns `false` if and only if the
`cache-control` attribute is present and its value is exactly `no-cache`
or exactly `no-store`; in every other case it returns `true`. -/
theorem should_cache_iff (request_args : RequestArgs) :
    should_cache request_args = false ↔
      ∃ v, lookupArg request_args "cache-control" = Option.some v ∧
        (v = "no-cache" ∨ v = "no-store") := by
  rcases hl : lookupArg request_args "cache-control" with _ | v
  · simp [should_cache, hl]
  · by_cases hv : v = "no-cache" ∨ v = "no-store" <;>
      simp [should_cache, hl, hv]

/-- Claim C7: on the empty FrameSequence the compositor fails with
`EmptyFrameSequence` (whatever the timing arguments, the disk state and
the fate of the save step), and that failure kind is distinct from each
of the other three kinds in the taxonomy. -/
theorem create_gif_empty_fails (duration loop : Nat) (saveOk : Bool)
    (fs : FS) :
    (create_gif_from_frames [] duration loop saveOk fs).1 =
      Except.error IIIFError.emptyFrameSequence ∧
    IIIFError.emptyFrameSequence ≠ IIIFError.missingIdentifier ∧
    IIIFError.emptyFrameSequence ≠ IIIFError.stagingIOFailure ∧
    IIIFError.emptyFrameSequence ≠ IIIFError.animationAssertionFailed :=
  ⟨rfl, by decide, by decide, by decide⟩

/-- Claim C8, counterexample: `datetime_to_float` is not total over every
representable point-in-time value — on a timezone-aware value (here the
aware epoch, UTC offset `0`) the subtraction of the naive epoch raises
`TypeError`, so the function has a failure mode. -/
theorem datetime_to_float_aware_fails :
    datetime_to_float { seconds := 0, tzOffset := Option.some 0 } =
      Except.error PyTypeError.naiveAwareMismatch :=
  rfl

/-- Claim C8, amended: `datetime_to_float` is pure and total over every
naive (offset-free) point-in-time value, returning its RFC-2822-style
representation suffixed with the literal `GMT` zone; it fails with
`TypeError` on timezone-aware values. -/
theorem datetime_to_float_naive_total (date : PyDatetime)
    (h : date.tzOffset = Option.none) :
    datetime_to_float date =
      Except.ok (formatdate_core date.seconds ++ " GMT") := by
  rcases date with ⟨s, _ | o⟩
  · simp [datetime_to_float, datetimeSubSeconds, utcEpoch, formatdate_gmt,
      Except.map]
  · simp at h

/-- Claim C8 witness: the naive epoch maps to its known RFC-2822 GMT
string. -/
theorem datetime_to_float_naive_total_witness :
    utcEpoch.tzOffset = Option.none ∧
    datetime_to_float utcEpoch =
      Except.ok "Thu, 01 Jan 1970 00:00:00 GMT" := by
  refine ⟨rfl, ?_⟩
  rw [datetime_to_float_naive_total utcEpoch rfl]
  rfl

/-- Claim C9: whenever `resize_gif` succeeds (it calls the compositor
without explicit timing parameters), the resulting artifact carries the
Python default timing values: per-frame duration `500` milliseconds and
loop count `0` (infinite repeat). -/
theorem resize_gif_default_timing (image : GifFile) (size : Nat × Nat)
    (resample : Nat) (saveOk : Bool) (fs : FS) (g : GifFile) (fs2 : FS)
    (h : resize_gif image size resample saveOk fs = (Except.ok g, fs2)) :
    g.duration = 500 ∧ g.loop = 0 := by
  unfold resize_gif create_gif_from_frames_default at h
  have := create_gif_ok_shape _ 500 0 saveOk fs g fs2 h
  subst this
  exact ⟨rfl, rfl⟩

/-- Claim C9 witness: a concrete two-frame resize, evaluated. -/
theorem resize_gif_default_timing_witness :
    resize_gif
        { frames := [⟨1, 1, Bitmap.src 0⟩, ⟨1, 1, Bitmap.src 1⟩]
          duration := 100, loop := 7 } (2, 3) 5 true
        { dirs := [], nextId := 0 } =
      (Except.ok
        { frames :=
            [⟨2, 3, Bitmap.resampled 5 2 3 (Bitmap.src 0)⟩,
             ⟨2, 3, Bitmap.resampled 5 2 3 (Bitmap.src 1)⟩]
          duration := 500, loop := 0 },
       { dirs := [], nextId := 1 }) ∧
    ({ frames :=
            [⟨2, 3, Bitmap.resampled 5 2 3 (Bitmap.src 0)⟩,
             ⟨2, 3, Bitmap.resampled 5 2 3 (Bitmap.src 1)⟩]
       duration := 500, loop := 0 } : GifFile).duration = 500 ∧
    ({ frames :=
            [⟨2, 3, Bitmap.resampled 5 2 3 (Bitmap.src 0)⟩,
             ⟨2, 3, Bitmap.resampled 5 2 3 (Bitmap.src 1)⟩]
       duration := 500, loop := 0 } : GifFile).loop = 0 := by
  refine ⟨rfl, ?_, ?_⟩
  · exact (resize_gif_default_timing
      { frames := [⟨1, 1, Bitmap.src 0⟩, ⟨1, 1, Bitmap.src 1⟩]
        duration := 100, loop := 7 } (2, 3) 5 true
      { dirs := [], nextId := 0 }
      { frames :=
          [⟨2, 3, Bitmap.resampled 5 2 3 (Bitmap.src 0)⟩,
           ⟨2, 3, Bitmap.resampled 5 2 3 (Bitmap.src 1)⟩]
        duration := 500, loop := 0 }
      { dirs := [], nextId := 1 } rfl).1
  · exact (resize_gif_default_timing
      { frames := [⟨1, 1, Bitmap.src 0⟩, ⟨1, 1, Bitmap.src 1⟩]
        duration := 100, loop := 7 } (2, 3) 5 true
      { dirs := [], nextId := 0 }
      { frames :=
          [⟨2, 3, Bitmap.resampled 5 2 3 (Bitmap.src 0)⟩,
           ⟨2, 3, Bitmap.resampled 5 2 3 (Bitmap.src 1)⟩]
        duration := 500, loop := 0 }
      { dirs := [], nextId := 1 } rfl).2

/-- Claim C10: `iiif_image_url` rejects only a `uuid` that is absent or
`None`; for every mapping whose `uuid` value is non-null — including the
empty string — the builder does not fail, and the routing call carries
that value verbatim. -/
theorem iiif_image_url_nonnull_uuid (kwargs : Kwargs)
    (h : Kwargs.get kwargs "uuid" ≠ PyVal.none) :
    ∃ call, iiif_image_url kwargs = Except.ok call ∧
      call.uuid = Kwargs.get kwargs "uuid" := by
  unfold iiif_image_url
  rw [if_neg h]
  exact ⟨_, rfl, rfl⟩

/-- Claim C10 witness: the empty-string identifier is accepted and
forwarded verbatim. -/
theorem iiif_image_url_nonnull_uuid_witness :
    Kwargs.get [("uuid", PyVal.str "")] "uuid" ≠ PyVal.none ∧
    ∃ call, iiif_image_url [("uuid", PyVal.str "")] = Except.ok call ∧
      call.uuid = Kwargs.get [("uuid", PyVal.str "")] "uuid" :=
  ⟨by decide, iiif_image_url_nonnull_uuid [("uuid", PyVal.str "")] (by decide)⟩

end FlaskIIIF
